import Mathlib

/-!
Shallow embedding of `src-tauri/src/lib.rs`: the three Tauri commands
`greet`, `load_audio_asset` and `load_model_fbx_from_zip` (with its inner
helper `read_zip_entry`), together with theorems settling the specification
claims about them.

Modelling conventions:
* file and entry contents are `List Nat` (byte sequences);
* paths are plain strings; `PathBuf::push` becomes `pushPath`, which joins
  with a `/` separator; Rust debug formatting of a path (the `:?` format,
  which wraps the path in double quotes) becomes `pathDebug`;
* the filesystem is a structure `FS` recording, for every path, whether it
  exists, what `fs::read` yields, whether `fs::File::open` fails, and what
  `zip::ZipArchive::new` yields on the opened file: a list of per-index
  entry results, where index `i` models `archive.by_index(i)`;
* a zip entry carries its stored name and the outcome of `read_to_end`
  (either the full decompressed bytes or an I/O error string);
* the build/runtime environment `Env` records `cfg(debug_assertions)` and
  the result of `std::env::var("CARGO_MANIFEST_DIR")` (the error branch
  carries `e.to_string()`);
* `app.path().resolve(path, BaseDirectory::Resource)` becomes the field
  `App.resolve_resource : String → Option Path` (`none` models `Err(_)`).
-/

namespace FpsGame

/-- Byte sequences, the contents of files and decompressed zip entries. -/
abbrev Bytes := List Nat

/-- Filesystem paths, modelled as plain strings. -/
abbrev Path := String

/-- Models `PathBuf::push`: join two path fragments with a separator. -/
def pushPath (base rel : Path) : Path := base ++ "/" ++ rel

/-- Models Rust debug formatting of a path (the `:?` format specifier),
which renders the path wrapped in double quotes. -/
def pathDebug (p : Path) : String := "\"" ++ p ++ "\""

/-- Models Rust `String::to_lowercase`, character by character (the entry
names involved are ASCII, where the two notions agree). -/
def lowerStr (s : String) : String := ⟨s.data.map Char.toLower⟩

/-- Models Rust `str::ends_with`: whether `suf` is a suffix of the
character sequence of `s`. -/
def endsWithStr (s suf : String) : Bool := suf.data.isSuffixOf s.data

/-- One entry of a zip archive as `read_zip_entry` observes it: its stored
name, and what `read_to_end` on it yields — the full decompressed bytes, or
an I/O error string. -/
structure ZipEntry where
  name : String
  read_result : Except String Bytes

/-- The filesystem as the two loaders observe it. `entry_results` models
the archive opened from a path: element `i` is the outcome of
`archive.by_index(i)` (an error string, or the entry). -/
structure FS where
  path_exists : Path → Bool
  read_file : Path → Except String Bytes
  open_err : Path → Option String
  open_archive : Path → Except String (List (Except String ZipEntry))

/-- The build and process environment: the value of
`cfg(debug_assertions)` and the result of reading the
`CARGO_MANIFEST_DIR` environment variable (error branch =
`e.to_string()`). -/
structure Env where
  debug_assertions : Bool
  cargo_manifest_dir : Except String String

/-- The Tauri app handle, reduced to the one capability the loaders use:
`app.path().resolve(rel, BaseDirectory::Resource)`, with `none` modelling
the `Err(_)` branch. -/
structure App where
  resolve_resource : String → Option Path

/-- The scan loop of `read_zip_entry`: walk the archive entries in index
order, skip every entry whose lowercased name does not end in ".fbx", and
return the decompressed bytes of the first one that does; propagate
`by_index` and `read_to_end` failures with their formatted messages. -/
def findFbxEntry (fs_zip_path : Path) (i : Nat) :
    List (Except String ZipEntry) → Except String Bytes
  | [] =>
      Except.error ("No .fbx entry found in zip " ++ pathDebug fs_zip_path)
  | Except.error e :: _ =>
      Except.error ("Failed to read zip entry " ++ toString i ++ " in "
        ++ pathDebug fs_zip_path ++ ": " ++ e)
  | Except.ok entry :: rest =>
      if endsWithStr (lowerStr entry.name) ".fbx" then
        match entry.read_result with
        | Except.error e =>
            Except.error ("Failed to read FBX entry " ++ entry.name ++ " in "
              ++ pathDebug fs_zip_path ++ ": " ++ e)
        | Except.ok buf => Except.ok buf
      else
        findFbxEntry fs_zip_path (i + 1) rest

/-- Embedding of the inner helper `read_zip_entry` of
`load_model_fbx_from_zip`: open the file, open it as a zip archive, and
scan for the first `.fbx` entry. -/
def read_zip_entry (fs : FS) (zip_path : Path) : Except String Bytes :=
  match fs.open_err zip_path with
  | some e =>
      Except.error ("Failed to open zip file " ++ pathDebug zip_path ++ ": " ++ e)
  | none =>
      match fs.open_archive zip_path with
      | Except.error e =>
          Except.error ("Failed to read zip archive " ++ pathDebug zip_path ++ ": " ++ e)
      | Except.ok entries => findFbxEntry zip_path 0 entries

/-- The candidate relative paths tried by `load_model_fbx_from_zip`, in
source order. -/
def model_candidates (zip_filename : String) : List String :=
  ["resources/models/" ++ zip_filename,
   "resources/" ++ zip_filename,
   "models/" ++ zip_filename,
   zip_filename]

/-- The candidate relative paths tried by `load_audio_asset`, in source
order. -/
def audio_candidates (filename : String) : List String :=
  ["resources/audio/" ++ filename,
   "resources/" ++ filename,
   "audio/" ++ filename,
   filename]

/-- The shared candidate loop of both loaders: resolve each relative path
against the resource base directory, skip it when resolution fails or the
resolved path does not exist, and apply `act` to the first resolved path
that exists; fall through to the not-found error. -/
def resolve_first (app : App) (fs : FS) (act : Path → Except String Bytes)
    (not_found : String) : List String → Except String Bytes
  | [] => Except.error not_found
  | c :: rest =>
      match app.resolve_resource c with
      | some path =>
          if fs.path_exists path then act path
          else resolve_first app fs act not_found rest
      | none => resolve_first app fs act not_found rest

/-- Models `fs::read` at a production candidate path in
`load_audio_asset`, including its error formatting. -/
def read_file_at (fs : FS) (path : Path) : Except String Bytes :=
  match fs.read_file path with
  | Except.ok b => Except.ok b
  | Except.error e =>
      Except.error ("Failed to read file at " ++ pathDebug path ++ ": " ++ e)

/-- Models `fs::read` at the development-tree path in `load_audio_asset`,
including its error formatting. -/
def read_dev_audio (fs : FS) (dev_path : Path) : Except String Bytes :=
  match fs.read_file dev_path with
  | Except.ok b => Except.ok b
  | Except.error e =>
      Except.error ("Failed to read file from dev path " ++ pathDebug dev_path ++ ": " ++ e)

/-- The not-found error of `load_model_fbx_from_zip`. -/
def model_not_found (zip_filename : String) : String :=
  "Could not find model zip " ++ zip_filename ++ " in resources"

/-- The not-found error of `load_audio_asset`. -/
def audio_not_found (filename : String) : String :=
  "Could not find audio file " ++ filename ++ " in resources"

/-- Embedding of the command `load_model_fbx_from_zip`. -/
def load_model_fbx_from_zip (env : Env) (app : App) (fs : FS)
    (zip_filename : String) : Except String Bytes :=
  if env.debug_assertions then
    match env.cargo_manifest_dir with
    | Except.error e => Except.error e
    | Except.ok manifest_dir =>
        let dev_path := pushPath (pushPath manifest_dir "resources/models") zip_filename
        if fs.path_exists dev_path then read_zip_entry fs dev_path
        else
          resolve_first app fs (read_zip_entry fs)
            (model_not_found zip_filename) (model_candidates zip_filename)
  else
    resolve_first app fs (read_zip_entry fs)
      (model_not_found zip_filename) (model_candidates zip_filename)

/-- Embedding of the command `greet`. -/
def greet (name : String) : String :=
  "Hello, " ++ name ++ "! You\x27ve been greeted from Rust!"

/-- Embedding of the command `load_audio_asset`. -/
def load_audio_asset (env : Env) (app : App) (fs : FS)
    (filename : String) : Except String Bytes :=
  if env.debug_assertions then
    match env.cargo_manifest_dir with
    | Except.error e => Except.error e
    | Except.ok manifest_dir =>
        let dev_path := pushPath (pushPath manifest_dir "resources/audio") filename
        if fs.path_exists dev_path then read_dev_audio fs dev_path
        else
          resolve_first app fs (read_file_at fs)
            (audio_not_found filename) (audio_candidates filename)
  else
    resolve_first app fs (read_file_at fs)
      (audio_not_found filename) (audio_candidates filename)

/-- A candidate relative path is skipped by the loop when resolving it
fails, or it resolves to a path that does not exist. -/
def skips (app : App) (fs : FS) (c : String) : Prop :=
  ∀ p, app.resolve_resource c = some p → fs.path_exists p = false

/-- An archive slot the scan loop steps over: a successfully read entry
whose lowercased name does not end in ".fbx". -/
def notFbx (x : Except String ZipEntry) : Prop :=
  ∃ ent, x = Except.ok ent ∧ endsWithStr (lowerStr ent.name) ".fbx" = false

/-- Example app handle for concrete checks: resource resolution prepends a
base directory. -/
def appRes : App := ⟨fun c => some ("res/" ++ c)⟩

/-- Example production environment (debug assertions off). -/
def envProd : Env := ⟨false, Except.error "environment variable not found"⟩

/-- Example development environment with the manifest directory set. -/
def envDev : Env := ⟨true, Except.ok "proj"⟩

/-- Example development environment with CARGO_MANIFEST_DIR unset. -/
def envDevNoVar : Env := ⟨true, Except.error "environment variable not found"⟩

/-- Example non-matching zip entry. -/
def entryTxt : ZipEntry := ⟨"readme.txt", Except.ok [0]⟩

/-- Example matching zip entry with an upper-case extension. -/
def entryFbx1 : ZipEntry := ⟨"Model.FBX", Except.ok [1, 2, 3]⟩

/-- Example second matching zip entry. -/
def entryFbx2 : ZipEntry := ⟨"other.fbx", Except.ok [9]⟩

/-- Example filesystem holding one model zip with three entries, two of
which match. -/
def fsModel : FS where
  path_exists := fun p => p == "res/resources/models/m.zip"
  read_file := fun _ => Except.error "io error"
  open_err := fun _ => none
  open_archive := fun p =>
    if p == "res/resources/models/m.zip" then
      Except.ok [Except.ok entryTxt, Except.ok entryFbx1, Except.ok entryFbx2]
    else Except.error "invalid Zip archive"

/-- Example filesystem where two audio candidates exist with different
contents. -/
def fsAudio : FS where
  path_exists := fun p =>
    p == "res/resources/audio/a.ogg" || p == "res/resources/a.ogg"
  read_file := fun p =>
    if p == "res/resources/audio/a.ogg" then Except.ok [7, 7]
    else if p == "res/resources/a.ogg" then Except.ok [8]
    else Except.error "missing"
  open_err := fun _ => none
  open_archive := fun _ => Except.error "invalid Zip archive"

/-- Example filesystem for development mode: only development-tree paths
exist. -/
def fsDev : FS where
  path_exists := fun p =>
    p == "proj/resources/audio/a.ogg" || p == "proj/resources/models/m.zip"
  read_file := fun p =>
    if p == "proj/resources/audio/a.ogg" then Except.ok [5]
    else Except.error "missing"
  open_err := fun _ => none
  open_archive := fun p =>
    if p == "proj/resources/models/m.zip" then Except.ok [Except.ok entryFbx2]
    else Except.error "invalid Zip archive"

/-- Example filesystem whose zip holds no .fbx entry. -/
def fsNoFbx : FS where
  path_exists := fun p => p == "res/resources/models/m.zip"
  read_file := fun _ => Except.error "io error"
  open_err := fun _ => none
  open_archive := fun _ => Except.ok [Except.ok entryTxt]

/-- Example filesystem whose files are not valid zip archives. -/
def fsCorrupt : FS where
  path_exists := fun p => p == "res/resources/models/m.zip"
  read_file := fun _ => Except.ok [80, 75]
  open_err := fun _ => none
  open_archive := fun _ => Except.error "Could not find central directory end"

/-- Example filesystem where nothing exists. -/
def fsEmpty : FS where
  path_exists := fun _ => false
  read_file := fun _ => Except.error "missing"
  open_err := fun _ => none
  open_archive := fun _ => Except.error "invalid Zip archive"

/-- Example filesystem where candidate files exist but opening or reading
them fails. -/
def fsReadFail : FS where
  path_exists := fun p =>
    p == "res/resources/audio/a.ogg" || p == "res/resources/models/m.zip"
  read_file := fun _ => Except.error "permission denied"
  open_err := fun _ => some "permission denied"
  open_archive := fun _ => Except.error "invalid Zip archive"

theorem resolve_first_skip (app : App) (fs : FS) (act : Path → Except String Bytes)
    (nf : String) (c : String) (rest : List String) (h : skips app fs c) :
    resolve_first app fs act nf (c :: rest) = resolve_first app fs act nf rest := by
  cases hres : app.resolve_resource c with
  | none => simp only [resolve_first, hres]
  | some p => simp only [resolve_first, hres, h p hres, Bool.false_eq_true, if_false]

theorem resolve_first_append (app : App) (fs : FS) (act : Path → Except String Bytes)
    (nf : String) (pre rest : List String) (h : ∀ c ∈ pre, skips app fs c) :
    resolve_first app fs act nf (pre ++ rest) = resolve_first app fs act nf rest := by
  induction pre with
  | nil => rfl
  | cons c cs ih =>
      rw [List.cons_append,
        resolve_first_skip app fs act nf c (cs ++ rest) (h c (by simp))]
      exact ih (fun c' hc' => h c' (by simp [hc']))

theorem resolve_first_hit (app : App) (fs : FS) (act : Path → Except String Bytes)
    (nf : String) (c : String) (rest : List String) (p : Path)
    (hres : app.resolve_resource c = some p) (hex : fs.path_exists p = true) :
    resolve_first app fs act nf (c :: rest) = act p := by
  simp only [resolve_first, hres, hex, if_true]

theorem findFbxEntry_cons_skip (zp : Path) (i : Nat) (ent : ZipEntry)
    (rest : List (Except String ZipEntry))
    (h : endsWithStr (lowerStr ent.name) ".fbx" = false) :
    findFbxEntry zp i (Except.ok ent :: rest) = findFbxEntry zp (i + 1) rest := by
  simp only [findFbxEntry, h, Bool.false_eq_true, if_false]

theorem findFbxEntry_append (zp : Path) (i : Nat)
    (pre rest : List (Except String ZipEntry)) (h : ∀ x ∈ pre, notFbx x) :
    findFbxEntry zp i (pre ++ rest) = findFbxEntry zp (i + pre.length) rest := by
  induction pre generalizing i with
  | nil => simp
  | cons x xs ih =>
      obtain ⟨ent, rfl, hent⟩ := h x (by simp)
      rw [List.cons_append, findFbxEntry_cons_skip zp i ent (xs ++ rest) hent,
        ih (i + 1) (fun x' hx' => h x' (by simp [hx']))]
      have hlen : i + (Except.ok ent :: xs : List (Except String ZipEntry)).length
          = i + 1 + xs.length := by
        simp [List.length_cons]
        omega
      rw [hlen]

theorem read_zip_entry_eq_find (fs : FS) (zp : Path)
    (entries : List (Except String ZipEntry))
    (hopen : fs.open_err zp = none)
    (harch : fs.open_archive zp = Except.ok entries) :
    read_zip_entry fs zp = findFbxEntry zp 0 entries := by
  simp [read_zip_entry, hopen, harch]

theorem load_audio_production (env : Env) (app : App) (fs : FS) (filename : String)
    (henv : env.debug_assertions = false) :
    load_audio_asset env app fs filename =
      resolve_first app fs (read_file_at fs) (audio_not_found filename)
        (audio_candidates filename) := by
  unfold load_audio_asset
  rw [henv]
  simp

theorem load_model_production (env : Env) (app : App) (fs : FS) (zip_filename : String)
    (henv : env.debug_assertions = false) :
    load_model_fbx_from_zip env app fs zip_filename =
      resolve_first app fs (read_zip_entry fs) (model_not_found zip_filename)
        (model_candidates zip_filename) := by
  unfold load_model_fbx_from_zip
  rw [henv]
  simp

theorem resolve_first_all_skip (app : App) (fs : FS) (act : Path → Except String Bytes)
    (nf : String) (cs : List String) (h : ∀ c ∈ cs, skips app fs c) :
    resolve_first app fs act nf cs = Except.error nf := by
  have happ := resolve_first_append app fs act nf cs [] h
  rw [List.append_nil] at happ
  rw [happ]
  rfl

theorem findFbxEntry_cons_hit (zp : Path) (i : Nat) (ent : ZipEntry)
    (rest : List (Except String ZipEntry)) (buf : Bytes)
    (hmatch : endsWithStr (lowerStr ent.name) ".fbx" = true)
    (hread : ent.read_result = Except.ok buf) :
    findFbxEntry zp i (Except.ok ent :: rest) = Except.ok buf := by
  simp only [findFbxEntry, hmatch, if_true, hread]

theorem findFbxEntry_no_match (zp : Path) (i : Nat) (entries : List ZipEntry)
    (h : ∀ ent ∈ entries, endsWithStr (lowerStr ent.name) ".fbx" = false) :
    findFbxEntry zp i (entries.map Except.ok) =
      Except.error ("No .fbx entry found in zip " ++ pathDebug zp) := by
  have happ := findFbxEntry_append zp i (entries.map Except.ok) []
    (fun x hx => by
      obtain ⟨ent, hent, rfl⟩ := List.mem_map.mp hx
      exact ⟨ent, rfl, h ent hent⟩)
  rw [List.append_nil] at happ
  rw [happ]
  rfl

theorem read_zip_entry_open_failure (fs : FS) (zp : Path) (e : String)
    (h : fs.open_err zp = some e) :
    read_zip_entry fs zp =
      Except.error ("Failed to open zip file " ++ pathDebug zp ++ ": " ++ e) := by
  simp [read_zip_entry, h]

theorem read_zip_entry_archive_failure (fs : FS) (zp : Path) (e : String)
    (hopen : fs.open_err zp = none) (harch : fs.open_archive zp = Except.error e) :
    read_zip_entry fs zp =
      Except.error ("Failed to read zip archive " ++ pathDebug zp ++ ": " ++ e) := by
  simp [read_zip_entry, hopen, harch]

/-- C1: at a resolved candidate path holding a zip archive,
`load_model_fbx_from_zip` returns the full decompressed contents of the
first entry, in archive enumeration order, whose name case-insensitively
ends with ".fbx".  The entries before it may include further structure but
none of them matches, so when several entries match, the result equals the
first such entry and the outcome is determined by the archive alone. -/
theorem C1_model_returns_first_fbx_entry
    (env : Env) (app : App) (fs : FS) (zip_filename : String)
    (cpre crest : List String) (c : String) (zip_path : Path)
    (epre erest : List (Except String ZipEntry)) (ent : ZipEntry) (buf : Bytes)
    (henv : env.debug_assertions = false)
    (hcand : model_candidates zip_filename = cpre ++ c :: crest)
    (hskip : ∀ c' ∈ cpre, skips app fs c')
    (hres : app.resolve_resource c = some zip_path)
    (hex : fs.path_exists zip_path = true)
    (hopen : fs.open_err zip_path = none)
    (harch : fs.open_archive zip_path = Except.ok (epre ++ Except.ok ent :: erest))
    (hpre : ∀ x ∈ epre, notFbx x)
    (hmatch : endsWithStr (lowerStr ent.name) ".fbx" = true)
    (hread : ent.read_result = Except.ok buf) :
    load_model_fbx_from_zip env app fs zip_filename = Except.ok buf := by
  rw [load_model_production env app fs zip_filename henv, hcand,
    resolve_first_append app fs (read_zip_entry fs) (model_not_found zip_filename)
      cpre (c :: crest) hskip,
    resolve_first_hit app fs (read_zip_entry fs) (model_not_found zip_filename)
      c crest zip_path hres hex,
    read_zip_entry_eq_find fs zip_path (epre ++ Except.ok ent :: erest) hopen harch,
    findFbxEntry_append zip_path 0 epre (Except.ok ent :: erest) hpre,
    findFbxEntry_cons_hit zip_path (0 + epre.length) ent erest buf hmatch hread]

/-- Concrete check of C1: the archive holds `readme.txt`, `Model.FBX` and
`other.fbx` in that order; the loader returns the bytes of `Model.FBX`. -/
theorem C1_model_returns_first_fbx_entry_witness :
    load_model_fbx_from_zip envProd appRes fsModel "m.zip" = Except.ok [1, 2, 3] :=
  C1_model_returns_first_fbx_entry envProd appRes fsModel "m.zip"
    [] ["resources/" ++ "m.zip", "models/" ++ "m.zip", "m.zip"]
    ("resources/models/" ++ "m.zip") "res/resources/models/m.zip"
    [Except.ok entryTxt] [Except.ok entryFbx2] entryFbx1 [1, 2, 3]
    rfl rfl (fun c' hc' => absurd hc' (List.not_mem_nil c'))
    rfl rfl rfl rfl
    (fun x hx => by
      rw [List.mem_singleton] at hx
      exact ⟨entryTxt, hx, by decide⟩)
    (by decide) rfl

/-- C2: when at least one packaged-resource candidate exists,
`load_audio_asset` returns exactly the byte content of the file at the
first existing candidate in the fixed priority order; every earlier
candidate either fails to resolve or does not exist, so in particular when
both `resources/audio/name` and `resources/name` exist the former is read
exclusively. -/
theorem C2_audio_returns_first_existing_candidate
    (env : Env) (app : App) (fs : FS) (filename : String)
    (cpre crest : List String) (c : String) (p : Path) (bytes : Bytes)
    (henv : env.debug_assertions = false)
    (hcand : audio_candidates filename = cpre ++ c :: crest)
    (hskip : ∀ c' ∈ cpre, skips app fs c')
    (hres : app.resolve_resource c = some p)
    (hex : fs.path_exists p = true)
    (hread : fs.read_file p = Except.ok bytes) :
    load_audio_asset env app fs filename = Except.ok bytes := by
  rw [load_audio_production env app fs filename henv, hcand,
    resolve_first_append app fs (read_file_at fs) (audio_not_found filename)
      cpre (c :: crest) hskip,
    resolve_first_hit app fs (read_file_at fs) (audio_not_found filename)
      c crest p hres hex]
  simp [read_file_at, hread]

/-- Concrete check of C2: both `resources/audio/a.ogg` and
`resources/a.ogg` exist with different contents; the loader returns the
content of the former. -/
theorem C2_audio_returns_first_existing_candidate_witness :
    load_audio_asset envProd appRes fsAudio "a.ogg" = Except.ok [7, 7] :=
  C2_audio_returns_first_existing_candidate envProd appRes fsAudio "a.ogg"
    [] ["resources/" ++ "a.ogg", "audio/" ++ "a.ogg", "a.ogg"]
    ("resources/audio/" ++ "a.ogg") "res/resources/audio/a.ogg" [7, 7]
    rfl rfl (fun c' hc' => absurd hc' (List.not_mem_nil c'))
    rfl rfl rfl

/-- C4: for a zip archive whose entries are all readable and none of whose
names case-insensitively ends with ".fbx", `load_model_fbx_from_zip`
(through its helper `read_zip_entry`) fails with the "No .fbx entry found"
error rather than returning bytes. -/
theorem C4_no_fbx_entry_error
    (fs : FS) (zip_path : Path) (entries : List ZipEntry)
    (hopen : fs.open_err zip_path = none)
    (harch : fs.open_archive zip_path = Except.ok (entries.map Except.ok))
    (hnone : ∀ ent ∈ entries, endsWithStr (lowerStr ent.name) ".fbx" = false) :
    read_zip_entry fs zip_path =
      Except.error ("No .fbx entry found in zip " ++ pathDebug zip_path) := by
  rw [read_zip_entry_eq_find fs zip_path (entries.map Except.ok) hopen harch]
  exact findFbxEntry_no_match zip_path 0 entries hnone

/-- Concrete check of C4: an archive holding only `readme.txt` yields the
"No .fbx entry found" error. -/
theorem C4_no_fbx_entry_error_witness :
    read_zip_entry fsNoFbx "res/resources/models/m.zip" =
      Except.error ("No .fbx entry found in zip "
        ++ pathDebug "res/resources/models/m.zip") :=
  C4_no_fbx_entry_error fsNoFbx "res/resources/models/m.zip" [entryTxt] rfl rfl
    (fun ent hent => by
      rw [List.mem_singleton] at hent
      rw [hent]
      decide)

/-- C5: for a file at a resolved path that opens but is corrupt or not a
zip archive, `read_zip_entry` fails with the archive-open error; being a
total function returning `Except.error`, it neither panics nor returns
(partial) data. -/
theorem C5_corrupt_archive_error
    (fs : FS) (zip_path : Path) (e : String)
    (hopen : fs.open_err zip_path = none)
    (harch : fs.open_archive zip_path = Except.error e) :
    read_zip_entry fs zip_path =
      Except.error ("Failed to read zip archive " ++ pathDebug zip_path ++ ": " ++ e) :=
  read_zip_entry_archive_failure fs zip_path e hopen harch

/-- Concrete check of C5: a file that is not a zip archive produces the
archive-open error. -/
theorem C5_corrupt_archive_error_witness :
    read_zip_entry fsCorrupt "res/resources/models/m.zip" =
      Except.error ("Failed to read zip archive "
        ++ pathDebug "res/resources/models/m.zip" ++ ": "
        ++ "Could not find central directory end") :=
  C5_corrupt_archive_error fsCorrupt "res/resources/models/m.zip"
    "Could not find central directory end" rfl rfl

/-- C3: in a development build, each loader first checks the single path
obtained by joining the manifest directory, the category subdirectory and
the requested name; when it exists, its read (or zip-extraction) result is
returned immediately with no other step consulted, and when it does not
exist, resolution proceeds to the ordered packaged-resource candidate
list. -/
theorem C3_dev_path_short_circuits
    (env : Env) (app : App) (fs : FS) (name dir : String)
    (hdbg : env.debug_assertions = true)
    (hman : env.cargo_manifest_dir = Except.ok dir) :
    (fs.path_exists (pushPath (pushPath dir "resources/audio") name) = true →
      load_audio_asset env app fs name =
        read_dev_audio fs (pushPath (pushPath dir "resources/audio") name)) ∧
    (fs.path_exists (pushPath (pushPath dir "resources/audio") name) = false →
      load_audio_asset env app fs name =
        resolve_first app fs (read_file_at fs) (audio_not_found name)
          (audio_candidates name)) ∧
    (fs.path_exists (pushPath (pushPath dir "resources/models") name) = true →
      load_model_fbx_from_zip env app fs name =
        read_zip_entry fs (pushPath (pushPath dir "resources/models") name)) ∧
    (fs.path_exists (pushPath (pushPath dir "resources/models") name) = false →
      load_model_fbx_from_zip env app fs name =
        resolve_first app fs (read_zip_entry fs) (model_not_found name)
          (model_candidates name)) := by
  refine ⟨fun h => ?_, fun h => ?_, fun h => ?_, fun h => ?_⟩ <;>
    simp [load_audio_asset, load_model_fbx_from_zip, hdbg, hman, h]

/-- Concrete check of C3: in a development build the development-tree
audio file is returned directly. -/
theorem C3_dev_path_short_circuits_witness :
    load_audio_asset envDev appRes fsDev "a.ogg" = Except.ok [5] :=
  ((C3_dev_path_short_circuits envDev appRes fsDev "a.ogg" "proj" rfl rfl).1 rfl).trans rfl

/-- C6: when no candidate path exists (in a development build the
development-tree path does not exist either), each loader fails with its
"not found" error, whose message contains the requested asset filename by
construction. -/
theorem C6_not_found_names_asset
    (env : Env) (app : App) (fs : FS) (name dir : String)
    (hdev : env.debug_assertions = true → env.cargo_manifest_dir = Except.ok dir ∧
      fs.path_exists (pushPath (pushPath dir "resources/audio") name) = false ∧
      fs.path_exists (pushPath (pushPath dir "resources/models") name) = false)
    (hskip_a : ∀ c ∈ audio_candidates name, skips app fs c)
    (hskip_m : ∀ c ∈ model_candidates name, skips app fs c) :
    load_audio_asset env app fs name =
      Except.error ("Could not find audio file " ++ name ++ " in resources") ∧
    load_model_fbx_from_zip env app fs name =
      Except.error ("Could not find model zip " ++ name ++ " in resources") := by
  constructor
  · cases hdbg : env.debug_assertions with
    | false =>
        rw [load_audio_production env app fs name hdbg]
        exact resolve_first_all_skip app fs (read_file_at fs) (audio_not_found name)
          (audio_candidates name) hskip_a
    | true =>
        obtain ⟨hman, hexa, _⟩ := hdev hdbg
        simp [load_audio_asset, hdbg, hman, hexa]
        exact resolve_first_all_skip app fs (read_file_at fs) (audio_not_found name)
          (audio_candidates name) hskip_a
  · cases hdbg : env.debug_assertions with
    | false =>
        rw [load_model_production env app fs name hdbg]
        exact resolve_first_all_skip app fs (read_zip_entry fs) (model_not_found name)
          (model_candidates name) hskip_m
    | true =>
        obtain ⟨hman, _, hexm⟩ := hdev hdbg
        simp [load_model_fbx_from_zip, hdbg, hman, hexm]
        exact resolve_first_all_skip app fs (read_zip_entry fs) (model_not_found name)
          (model_candidates name) hskip_m

/-- Concrete check of C6: on an empty filesystem both loaders return their
not-found errors naming the asset. -/
theorem C6_not_found_names_asset_witness :
    load_audio_asset envProd appRes fsEmpty "a.ogg" =
      Except.error ("Could not find audio file " ++ "a.ogg" ++ " in resources") ∧
    load_model_fbx_from_zip envProd appRes fsEmpty "a.ogg" =
      Except.error ("Could not find model zip " ++ "a.ogg" ++ " in resources") :=
  C6_not_found_names_asset envProd appRes fsEmpty "a.ogg" "proj"
    (fun hdbg => absurd hdbg (by decide))
    (fun _ _ _ _ => rfl) (fun _ _ _ _ => rfl)

/-- C7: each failure mode of the loaders — file-open failure, file-read
failure, archive-open failure, entry-read failure (for the index or for
the matched FBX entry), no matching entry, and no candidate found —
surfaces as a message built from a fixed head followed by the offending
path or filename, and the seven heads are pairwise distinct; as the
embedding is a single pass over the candidates and entries, no failing
operation is consulted twice. -/
theorem C7_error_messages_distinct
    (env : Env) (app : App) (fs : FS) (zp : Path) (name : String)
    (henv : env.debug_assertions = false) :
    (∀ e, fs.open_err zp = some e →
      read_zip_entry fs zp =
        Except.error ("Failed to open zip file " ++ pathDebug zp ++ ": " ++ e)) ∧
    (∀ e, fs.read_file zp = Except.error e →
      read_file_at fs zp =
        Except.error ("Failed to read file at " ++ pathDebug zp ++ ": " ++ e)) ∧
    (∀ e, fs.open_err zp = none → fs.open_archive zp = Except.error e →
      read_zip_entry fs zp =
        Except.error ("Failed to read zip archive " ++ pathDebug zp ++ ": " ++ e)) ∧
    (∀ e rest, fs.open_err zp = none →
      fs.open_archive zp = Except.ok (Except.error e :: rest) →
      read_zip_entry fs zp =
        Except.error ("Failed to read zip entry " ++ toString (0 : Nat) ++ " in "
          ++ pathDebug zp ++ ": " ++ e)) ∧
    (∀ ent e rest, fs.open_err zp = none →
      fs.open_archive zp = Except.ok (Except.ok ent :: rest) →
      endsWithStr (lowerStr ent.name) ".fbx" = true →
      ent.read_result = Except.error e →
      read_zip_entry fs zp =
        Except.error ("Failed to read FBX entry " ++ ent.name ++ " in "
          ++ pathDebug zp ++ ": " ++ e)) ∧
    (fs.open_err zp = none → fs.open_archive zp = Except.ok [] →
      read_zip_entry fs zp =
        Except.error ("No .fbx entry found in zip " ++ pathDebug zp)) ∧
    ((∀ c ∈ audio_candidates name, skips app fs c) →
      load_audio_asset env app fs name = Except.error (audio_not_found name)) ∧
    List.Pairwise (fun a b => a ≠ b)
      ["Failed to open zip file ", "Failed to read file at ",
       "Failed to read zip archive ", "Failed to read zip entry ",
       "Failed to read FBX entry ", "No .fbx entry found in zip ",
       "Could not find audio file "] := by
  refine ⟨?_, ?_, ?_, ?_, ?_, ?_, ?_, by decide⟩
  · exact fun e he => read_zip_entry_open_failure fs zp e he
  · intro e he
    simp [read_file_at, he]
  · exact fun e hopen harch => read_zip_entry_archive_failure fs zp e hopen harch
  · intro e rest hopen harch
    rw [read_zip_entry_eq_find fs zp (Except.error e :: rest) hopen harch]
    simp [findFbxEntry]
  · intro ent e rest hopen harch hm hr
    rw [read_zip_entry_eq_find fs zp (Except.ok ent :: rest) hopen harch]
    simp [findFbxEntry, hm, hr]
  · intro hopen harch
    rw [read_zip_entry_eq_find fs zp [] hopen harch]
    rfl
  · intro hskip
    rw [load_audio_production env app fs name henv]
    exact resolve_first_all_skip app fs (read_file_at fs) (audio_not_found name)
      (audio_candidates name) hskip

/-- Concrete check of C7 (file-open failure branch): the open error
message carries the offending path. -/
theorem C7_error_messages_distinct_witness :
    read_zip_entry fsReadFail "res/resources/models/m.zip" =
      Except.error ("Failed to open zip file "
        ++ pathDebug "res/resources/models/m.zip" ++ ": " ++ "permission denied") :=
  (C7_error_messages_distinct envProd appRes fsReadFail
    "res/resources/models/m.zip" "m.zip" rfl).1 "permission denied" rfl

/-- C8: `greet` is pure string formatting with no I/O: it is a plain
function of its argument, returning the greeting built from `name`. -/
theorem C8_greet_pure_formatting (name : String) :
    greet name = "Hello, " ++ name ++ "! You\x27ve been greeted from Rust!" := rfl

/-- C9: once a candidate path is found to exist, each loader returns that
path's read or extract outcome — success or error — and the later
candidates in the priority list no longer appear in the result. -/
theorem C9_found_candidate_short_circuits
    (env : Env) (app : App) (fs : FS) (name : String)
    (henv : env.debug_assertions = false) :
    (∀ cpre c crest p, audio_candidates name = cpre ++ c :: crest →
      (∀ c' ∈ cpre, skips app fs c') →
      app.resolve_resource c = some p → fs.path_exists p = true →
      load_audio_asset env app fs name = read_file_at fs p) ∧
    (∀ cpre c crest p, model_candidates name = cpre ++ c :: crest →
      (∀ c' ∈ cpre, skips app fs c') →
      app.resolve_resource c = some p → fs.path_exists p = true →
      load_model_fbx_from_zip env app fs name = read_zip_entry fs p) := by
  constructor
  · intro cpre c crest p hcand hskip hres hex
    rw [load_audio_production env app fs name henv, hcand,
      resolve_first_append app fs (read_file_at fs) (audio_not_found name)
        cpre (c :: crest) hskip,
      resolve_first_hit app fs (read_file_at fs) (audio_not_found name)
        c crest p hres hex]
  · intro cpre c crest p hcand hskip hres hex
    rw [load_model_production env app fs name henv, hcand,
      resolve_first_append app fs (read_zip_entry fs) (model_not_found name)
        cpre (c :: crest) hskip,
      resolve_first_hit app fs (read_zip_entry fs) (model_not_found name)
        c crest p hres hex]

/-- Concrete check of C9: the first audio candidate exists but reading it
fails; the loader surfaces that read error instead of moving on to the
remaining candidates. -/
theorem C9_found_candidate_short_circuits_witness :
    load_audio_asset envProd appRes fsReadFail "a.ogg" =
      Except.error ("Failed to read file at "
        ++ pathDebug "res/resources/audio/a.ogg" ++ ": " ++ "permission denied") :=
  (((C9_found_candidate_short_circuits envProd appRes fsReadFail "a.ogg" rfl).1
    [] ("resources/audio/" ++ "a.ogg")
    ["resources/" ++ "a.ogg", "audio/" ++ "a.ogg", "a.ogg"]
    "res/resources/audio/a.ogg"
    rfl (fun c' hc' => absurd hc' (List.not_mem_nil c')) rfl rfl)).trans rfl

/-- C10: in a development build with CARGO_MANIFEST_DIR unset, both
loaders return the environment-variable error immediately: the result does
not depend on the filesystem or on resource resolution at all. -/
theorem C10_missing_manifest_dir_errors
    (env : Env) (app : App) (fs : FS) (name e : String)
    (hdbg : env.debug_assertions = true)
    (hman : env.cargo_manifest_dir = Except.error e) :
    load_audio_asset env app fs name = Except.error e ∧
    load_model_fbx_from_zip env app fs name = Except.error e := by
  constructor <;>
    simp [load_audio_asset, load_model_fbx_from_zip, hdbg, hman]

/-- Concrete check of C10: with the environment variable unset, both
loaders fail with its error even though resolution would succeed. -/
theorem C10_missing_manifest_dir_errors_witness :
    load_audio_asset envDevNoVar appRes fsEmpty "a.ogg" =
      Except.error "environment variable not found" ∧
    load_model_fbx_from_zip envDevNoVar appRes fsEmpty "a.ogg" =
      Except.error "environment variable not found" :=
  C10_missing_manifest_dir_errors envDevNoVar appRes fsEmpty "a.ogg"
    "environment variable not found" rfl rfl

end FpsGame
